import Mathlib

/-!
Shallow embedding of `src/main.py` (a flight-booking agent script) and
verification of its specification claims.

The script orchestrates two interactive loops around an LLM agent
framework:
* a search loop (`main`) that repeatedly runs `search_agent` and asks the
  user to buy or keep searching, and
* a seat-selection loop (`find_seat`) that repeatedly parses free-text
  seat preferences.

Pure data and the result validator are translated directly from the
source.  The agent framework (`pydantic_ai`) is not part of the
repository; its invocation/retry/usage-limit machinery is modelled from
the spec (each such definition says so in its doc comment).
-/

namespace FlightBooking

/-- Calendar date, standing in for Python `datetime.date`.  Only equality
of dates is ever used by the program logic. -/
structure Date where
  year : Nat
  month : Nat
  day : Nat
deriving DecidableEq, Repr

/-- `FlightDetails` (src/main.py:25-30): structured flight record the
agent is expected to produce. -/
structure FlightDetails where
  flight_number : String
  price : Int
  origin : String
  destination : String
  date : Date
deriving DecidableEq, Repr

/-- Result variants of the search agent: `FlightDetails | NonFlightFound`
(src/main.py:32-33 and 52). -/
inductive SearchResult where
  | flight (d : FlightDetails)
  | nonFlightFound
deriving DecidableEq, Repr

/-- `Deps` (src/main.py:43-48): the dependencies dataclass.  Note that its
fields are `web_page_text`, `req_origin`, `req_destination`, `req_date`;
there is no field named `date`. -/
structure Deps where
  web_page_text : String
  req_origin : String
  req_destination : String
  req_date : Date
deriving DecidableEq, Repr

/-- Outcome of running the result validator `validate_result`
(src/main.py:67-81): either the value is returned, or `ModelRetry` is
raised with a repair message, or evaluating the function raises an
`AttributeError` (reading an attribute the dataclass does not define). -/
inductive ValidateOutcome where
  | ok (r : SearchResult)
  | modelRetry (message : String)
  | attributeError (attr : String)
deriving DecidableEq, Repr

/-- The origin mismatch message of src/main.py:73:
`f"Flight should have origin {ctx.deps.req_origin}, not {result.origin}"`. -/
def origin_error (deps : Deps) (r : FlightDetails) : String :=
  "Flight should have origin " ++ deps.req_origin ++ ", not " ++ r.origin

/-- The destination mismatch message of src/main.py:75 (note: no comma
before `not` in the source f-string):
`f"Flight should have destination {ctx.deps.req_destination} not {result.destination}"`. -/
def destination_error (deps : Deps) (r : FlightDetails) : String :=
  "Flight should have destination " ++ deps.req_destination ++ " not " ++ r.destination

/-- `validate_result` (src/main.py:67-81), translated line by line.
A `NonFlightFound` result is returned unchanged.  Otherwise the origin
and destination checks append their messages to `errors`.  The date check
at line 76 guards line 77, whose f-string reads `ctx.deps.date`; `Deps`
defines no attribute `date` (src/main.py:43-48), so evaluating that
f-string raises `AttributeError` before anything is appended — modelled
as `ValidateOutcome.attributeError "date"`.  When the date matches, a
nonempty `errors` list raises `ModelRetry` with the messages joined by
newlines (line 79); otherwise the record is returned unchanged. -/
def validate_result (deps : Deps) (result : SearchResult) : ValidateOutcome :=
  match result with
  | SearchResult.nonFlightFound => ValidateOutcome.ok result
  | SearchResult.flight r =>
    let errors : List String := []
    let errors := if r.origin ≠ deps.req_origin then errors ++ [origin_error deps r] else errors
    let errors := if r.destination ≠ deps.req_destination
      then errors ++ [destination_error deps r] else errors
    if r.date ≠ deps.req_date then
      ValidateOutcome.attributeError "date"
    else if errors.isEmpty then
      ValidateOutcome.ok result
    else
      ValidateOutcome.modelRetry (String.intercalate "\n" errors)

/-- Stand-in for the long literal `flights_web_page` (src/main.py:85-133).
The text is only ever handed to the extraction model; no program logic
inspects it, so its exact contents are irrelevant to every claim. -/
def flights_web_page : String := "flight listing page text"

/-- The `Deps` value built at the start of `main` (src/main.py:146-151):
origin BOS, destination YYZ, date 2025-01-10. -/
def main_deps : Deps :=
  { web_page_text := flights_web_page
    req_origin := "BOS"
    req_destination := "YYZ"
    req_date := ⟨2025, 1, 10⟩ }

/-- A flight from the listing that matches `main_deps` exactly
(flight 6, src/main.py:116-120). -/
def matchedFlight : FlightDetails :=
  { flight_number := "BOS-YYZ303", price := 120
    origin := "BOS", destination := "YYZ", date := ⟨2025, 1, 10⟩ }

/-- A record agreeing with `main_deps` on origin and destination but not
on the date. -/
def wrongDateFlight : FlightDetails :=
  { flight_number := "BOS-YYZ303", price := 120
    origin := "BOS", destination := "YYZ", date := ⟨2025, 1, 11⟩ }

/-- A record with the wrong origin only (flight 3 of the listing,
relabelled to the requested destination and date so that only the origin
predicate fails). -/
def wrongOriginFlight : FlightDetails :=
  { flight_number := "SFO-AK789", price := 400
    origin := "SFO", destination := "YYZ", date := ⟨2025, 1, 10⟩ }

/-- A record with both origin and destination wrong, date right. -/
def wrongBothFlight : FlightDetails :=
  { flight_number := "SFO-AK456", price := 370
    origin := "SFO", destination := "FAI", date := ⟨2025, 1, 10⟩ }

/-- The seat letters accepted by the `SeatPreference` schema
(src/main.py:38, `Literal` annotation). -/
def seatLetters : List Char := ['A', 'B', 'C', 'D', 'E', 'F']

/-- `SeatPreference` (src/main.py:36-38): the data carried by a
successfully constructed seat preference. -/
structure SeatPreference where
  row : Int
  seat : Char
deriving DecidableEq, Repr

/-- Construction of a `SeatPreference`, as pydantic performs it at
instantiation time: `row` must satisfy the `Field(ge=1, le=30)`
constraint and `seat` must be one of the `Literal` letters
(src/main.py:36-38); a violating value fails construction (`none`), it
is never clamped or replaced. -/
def mk_SeatPreference (row : Int) (seat : Char) : Option SeatPreference :=
  if 1 ≤ row ∧ row ≤ 30 ∧ seat ∈ seatLetters then
    some ⟨row, seat⟩
  else
    none

/-- Provenance tag for a conversation message: which loop produced it. -/
inductive MsgTag where
  | search
  | seat
deriving DecidableEq, Repr

/-- Modelled from the spec: a `ModelMessage` of the framework, reduced to
what the claims observe — which loop it belongs to, its content, and the
result-tool return content (which `all_messages` can replace,
src/main.py:181-183). -/
structure Msg where
  tag : MsgTag
  content : String
  returnContent : String
deriving DecidableEq, Repr

/-- Modelled from the spec: `all_messages(result_tool_return_content=rc)`
replaces the return content of the final result-tool message of the run;
here, the return content of the run's last message. -/
def setLastReturn (rc : String) : List Msg → List Msg
  | [] => []
  | [m] => [{ m with returnContent := rc }]
  | m :: m2 :: ms => m :: setLastReturn rc (m2 :: ms)

/-- Modelled from the spec: the opaque language model behind
`search_agent`, as a deterministic oracle.  `respond history attempt`
is the structured result the model produces on the given attempt of a
run, seeing the given conversation history. -/
structure SearchOracle where
  respond : List Msg → Nat → SearchResult

/-- Outcome of one `search_agent.run` call: a validated result, a fatal
retry-count exhaustion (`UnexpectedModelBehavior` in the framework), or
an uncaught `AttributeError` escaping the result validator. -/
inductive SearchOutcome where
  | success (r : SearchResult)
  | exceededRetries
  | attributeError (attr : String)
deriving DecidableEq, Repr

/-- Result of one `search_agent.run` call: its outcome, the new messages
this run appends to the conversation, the usage counter after the run
(one request per model attempt), and the number of retries performed. -/
structure SearchRunResult where
  outcome : SearchOutcome
  msgs : List Msg
  usage : Nat
  retries : Nat
deriving DecidableEq, Repr

/-- Modelled from the spec: the framework's retry loop inside one
`search_agent.run` call.  Each attempt issues one model request
(incrementing usage — `main` passes no `usage_limits` to this agent,
src/main.py:158-162, so no budget check happens here), runs
`validate_result` on the response, and on `ModelRetry` appends the
rejection message to the conversation and re-prompts, up to
`retriesLeft` further attempts; a `ModelRetry` with no retries left is
the fatal retry-count exhaustion.  An `AttributeError` from the
validator propagates immediately. -/
def searchRunGo (deps : Deps) (oracle : SearchOracle) (hist : List Msg)
    (usage : Nat) (acc : List Msg) (retriesDone : Nat) : Nat → SearchRunResult
  | 0 =>
    let resp := oracle.respond (hist ++ acc) retriesDone
    let acc2 := acc ++ [⟨MsgTag.search, "model-response", ""⟩]
    match validate_result deps resp with
    | ValidateOutcome.ok res =>
        ⟨SearchOutcome.success res, acc2, usage + 1, retriesDone⟩
    | ValidateOutcome.attributeError a =>
        ⟨SearchOutcome.attributeError a, acc2, usage + 1, retriesDone⟩
    | ValidateOutcome.modelRetry _ =>
        ⟨SearchOutcome.exceededRetries, acc2, usage + 1, retriesDone⟩
  | n + 1 =>
    let resp := oracle.respond (hist ++ acc) retriesDone
    let acc2 := acc ++ [⟨MsgTag.search, "model-response", ""⟩]
    match validate_result deps resp with
    | ValidateOutcome.ok res =>
        ⟨SearchOutcome.success res, acc2, usage + 1, retriesDone⟩
    | ValidateOutcome.attributeError a =>
        ⟨SearchOutcome.attributeError a, acc2, usage + 1, retriesDone⟩
    | ValidateOutcome.modelRetry m =>
        searchRunGo deps oracle hist (usage + 1)
          (acc2 ++ [⟨MsgTag.search, m, ""⟩]) (retriesDone + 1) n

/-- The user prompt `main` builds each iteration (src/main.py:159; the
double space after "flight" is in the source f-string). -/
def search_prompt (deps : Deps) : String :=
  "find me a flight  from " ++ deps.req_origin ++ " to " ++ deps.req_destination

/-- One `search_agent.run` call (src/main.py:158-162): the conversation
starts from `hist` plus the user prompt message, and the agent is
configured with `retries=4` (src/main.py:53). -/
def search_agent_run (deps : Deps) (oracle : SearchOracle) (hist : List Msg)
    (usage : Nat) : SearchRunResult :=
  searchRunGo deps oracle hist usage [⟨MsgTag.search, search_prompt deps, ""⟩] 0 4

/-- A model that on every attempt returns the record mismatching only on
origin (so that each attempt fails validation with a `ModelRetry`). -/
def originOracle : SearchOracle := ⟨fun _ _ => SearchResult.flight wrongOriginFlight⟩

/-- A model that on every attempt returns the record mismatching only on
the date. -/
def dateOracle : SearchOracle := ⟨fun _ _ => SearchResult.flight wrongDateFlight⟩

/-- A model that on every attempt returns the exactly matching flight. -/
def flightOracle : SearchOracle := ⟨fun _ _ => SearchResult.flight matchedFlight⟩

/-- The user at the console, as a deterministic oracle: `buyAnswer n` is
the reply to the buy-or-search prompt at outer iteration `n`
(src/main.py:172-174), `seatText n` the free text typed at seat-loop
iteration `n` (src/main.py:190). -/
structure UserOracle where
  buyAnswer : Nat → String
  seatText : Nat → String

/-- The values the `message_history` local of `find_seat` can hold.  Its
annotation is `list[ModelMessage] | None` (src/main.py:188); at runtime
it holds `None` initially and, after a parse failure, the JSON *bytes*
returned by `result.all_messages_json()` (src/main.py:201) — not a
message list.  `msgs` is the annotated list form, which `find_seat`
never actually produces; `jsonBytes l` is the JSON serialization of the
messages `l`. -/
inductive SeatHist where
  | none
  | msgs (l : List Msg)
  | jsonBytes (l : List Msg)
deriving DecidableEq, Repr

/-- Whether a seat-loop history value is an actual message list (the type
the `message_history` parameter expects). -/
def SeatHist.isMsgList : SeatHist → Bool
  | SeatHist.msgs _ => true
  | _ => false

/-- The messages underlying a seat-loop history value (for `jsonBytes`,
the messages that were serialized). -/
def SeatHist.underlying : SeatHist → List Msg
  | SeatHist.none => []
  | SeatHist.msgs l => l
  | SeatHist.jsonBytes l => l

/-- A seat-loop history value the seat loop may legitimately pass to its
own model: `None`, or the serialized form of messages that all belong to
the seat loop.  An actual `msgs` list never occurs in `find_seat`, and
no search-tagged message may appear. -/
def seatHistOk : SeatHist → Bool
  | SeatHist.none => true
  | SeatHist.msgs _ => false
  | SeatHist.jsonBytes l => l.all (fun m => m.tag == MsgTag.seat)

/-- Modelled from the spec: the opaque parsing model behind
`seat_preference_agent`, as a deterministic oracle; `none` stands for
the `Failed` marker. -/
structure SeatOracle where
  parse : String → SeatHist → Option SeatPreference

/-- `UsageLimits(request_limit=15)` (src/main.py:136). -/
def usage_request_limit : Nat := 15

/-- Outcome of `find_seat`: a parsed preference, or the framework's
`UsageLimitExceeded` raised by the check that runs before a request. -/
inductive FindSeatOutcome where
  | found (p : SeatPreference)
  | budgetExceeded
deriving DecidableEq, Repr

/-- Result of `find_seat`, instrumented with the list of model
invocations it issued: for each one, the user text and the
`message_history` value passed to it. -/
structure FindSeatResult where
  outcome : FindSeatOutcome
  usage : Nat
  calls : List (String × SeatHist)
deriving DecidableEq, Repr

/-- `find_seat`'s loop body (src/main.py:189-201).  The run passes
`usage_limits` (src/main.py:195), so the framework checks the budget
before issuing the request: at the limit, `UsageLimitExceeded` is raised
and no call is made (modelled from the spec).  Otherwise the user is
prompted, the parsing model invoked (one request), a `SeatPreference` is
returned as-is, and on `Failed` the failure is reported and the loop
retries with `message_history` set to `result.all_messages_json()` —
the JSON bytes of the messages so far plus the failed exchange
(src/main.py:201).  `fuel` makes the recursion structural; the wrapper
`find_seat_entry` supplies `usage_request_limit - usage`, so along every
actual call `fuel = 0` holds exactly when `usage_request_limit ≤ usage`
and the fuel-out branch coincides with the budget check. -/
def findSeatGo (seo : SeatOracle) (texts : Nat → String) :
    Nat → Nat → SeatHist → Nat → FindSeatResult
  | 0, _iter, _hist, usage => ⟨FindSeatOutcome.budgetExceeded, usage, []⟩
  | fuel + 1, iter, hist, usage =>
    if usage_request_limit ≤ usage then
      ⟨FindSeatOutcome.budgetExceeded, usage, []⟩
    else
      let text := texts iter
      match seo.parse text hist with
      | some p => ⟨FindSeatOutcome.found p, usage + 1, [(text, hist)]⟩
      | Option.none =>
        let r := findSeatGo seo texts fuel (iter + 1)
          (SeatHist.jsonBytes (hist.underlying ++
            [⟨MsgTag.seat, text, ""⟩, ⟨MsgTag.seat, "could-not-parse", ""⟩]))
          (usage + 1)
        ⟨r.outcome, r.usage, (text, hist) :: r.calls⟩

/-- `find_seat` as `main` calls it (src/main.py:176, 187-188): it
receives only the shared usage counter, and its local `message_history`
starts as `None`. -/
def find_seat_entry (seo : SeatOracle) (texts : Nat → String) (usage : Nat) :
    FindSeatResult :=
  findSeatGo seo texts (usage_request_limit - usage) 0 SeatHist.none usage

/-- State of `main`'s interactive loop (src/main.py:145-184): still
looping with the current `deps`, `message_history` and usage counter, or
terminated — no flight found (line 165-168), a flight bought
(line 175-179), retry-count exhaustion (`UnexpectedModelBehavior`
escaping `search_agent.run`), an `AttributeError` escaping the
validator, or `UsageLimitExceeded` escaping `find_seat`. -/
inductive MainState where
  | running (deps : Deps) (history : Option (List Msg)) (usage : Nat)
  | notFound (usage : Nat)
  | bought (flight : FlightDetails) (seat : SeatPreference) (usage : Nat)
  | fatalRetries (usage : Nat)
  | fatalAttribute (usage : Nat)
  | fatalBudget (usage : Nat)
deriving DecidableEq, Repr

/-- The message list behind a `message_history` value (`None` behaves as
the empty history). -/
def histList : Option (List Msg) → List Msg
  | Option.none => []
  | Option.some l => l

/-- One iteration of `main`'s `while True` loop (src/main.py:156-184):
run the search agent on the current history (no `usage_limits` passed,
src/main.py:158-162, so no budget check guards these requests); on
`NonFlightFound` stop; on a flight, ask the user — `"buy"` runs
`find_seat` and `buy_ticket` and stops, any other answer sets
`message_history` to `result.all_messages(result_tool_return_content=
'Please suggest another flight')` — all prior messages plus this run's
messages, with the final result-tool return content replaced by the
fresh instruction — and loops with `deps` unchanged.  Terminal states
are absorbing. -/
def mainStep (so : SearchOracle) (uo : UserOracle) (seo : SeatOracle)
    (iter : Nat) : MainState → MainState
  | MainState.running deps h usage =>
    let r := search_agent_run deps so (histList h) usage
    match r.outcome with
    | SearchOutcome.attributeError _ => MainState.fatalAttribute r.usage
    | SearchOutcome.exceededRetries => MainState.fatalRetries r.usage
    | SearchOutcome.success res =>
      match res with
      | SearchResult.nonFlightFound => MainState.notFound r.usage
      | SearchResult.flight f =>
        if uo.buyAnswer iter = "buy" then
          let sr := find_seat_entry seo uo.seatText r.usage
          match sr.outcome with
          | FindSeatOutcome.found p => MainState.bought f p sr.usage
          | FindSeatOutcome.budgetExceeded => MainState.fatalBudget sr.usage
        else
          MainState.running deps
            (Option.some (histList h ++
              setLastReturn "Please suggest another flight" r.msgs))
            r.usage
  | s => s

/-- The state of `main` after `n` loop iterations, starting as the
source does (src/main.py:146-153): the fixed `Deps`, `message_history =
None`, `usage = Usage()` (zero requests). -/
def mainSteps (so : SearchOracle) (uo : UserOracle) (seo : SeatOracle) :
    Nat → MainState
  | 0 => MainState.running main_deps Option.none 0
  | n + 1 => mainStep so uo seo n (mainSteps so uo seo n)

/-- The two messages one always-successful search iteration appends to
the history when the user keeps searching. -/
def searchIterMsgs : List Msg :=
  [⟨MsgTag.search, search_prompt main_deps, ""⟩,
    ⟨MsgTag.search, "model-response", "Please suggest another flight"⟩]

/-- Closed form of the history in the always-successful, always-keep-
searching run. -/
def flightHist : Nat → Option (List Msg)
  | 0 => Option.none
  | n + 1 => Option.some (histList (flightHist n) ++ searchIterMsgs)

/-- A user who always keeps searching and, in the seat loop, always
types the same text. -/
def alwaysSearchUser : UserOracle := ⟨fun _ => "search", fun _ => "14A"⟩

/-- A seat-parsing model that fails on the first exchange (history still
`None`) and succeeds afterwards. -/
def failOnceSeatOracle : SeatOracle :=
  ⟨fun _ h => match h with
    | SeatHist.none => Option.none
    | _ => Option.some ⟨14, 'A'⟩⟩

end FlightBooking

namespace FlightBooking

/-- Claim C5: for any flight record whose origin and destination both
match the requested criteria but whose date differs, `validate_result`
neither returns a result nor raises `ModelRetry`: building the date
mismatch message reads `ctx.deps.date`, an attribute `Deps` does not
define, so the step fails with an `AttributeError`. -/
theorem C5_date_mismatch_attribute_error (deps : Deps) (r : FlightDetails)
    (_ho : r.origin = deps.req_origin) (_hd : r.destination = deps.req_destination)
    (hdate : r.date ≠ deps.req_date) :
    validate_result deps (SearchResult.flight r) = ValidateOutcome.attributeError "date" := by
  simp [validate_result, hdate]

/-- Witness for C5 at a concrete input: the in-repo criteria (BOS, YYZ,
2025-01-10) against a record that matches on origin and destination but
is dated 2025-01-11. -/
theorem C5_date_mismatch_attribute_error_witness :
    (wrongDateFlight.origin = main_deps.req_origin ∧
      wrongDateFlight.destination = main_deps.req_destination ∧
      wrongDateFlight.date ≠ main_deps.req_date) ∧
    validate_result main_deps (SearchResult.flight wrongDateFlight) =
      ValidateOutcome.attributeError "date" :=
  ⟨⟨rfl, rfl, by decide⟩,
    C5_date_mismatch_attribute_error main_deps wrongDateFlight rfl rfl (by decide)⟩

/-- Claim C1 (code bug): the claim says `validate(r, c)` succeeds iff the
three identity fields match and otherwise raises a retryable failure
carrying the failing predicates' messages joined by newlines.  The code
honours this only while the date predicate passes (first three
conjuncts: success on full match; exact single and joined double
mismatch messages for origin/destination).  On a date mismatch the code
instead raises `AttributeError` while building the date message (last
conjunct), because it reads the nonexistent `Deps.date` attribute
(src/main.py:77), so no retryable failure is signalled. -/
theorem C1_validate_iff_and_messages :
    validate_result main_deps (SearchResult.flight matchedFlight) =
      ValidateOutcome.ok (SearchResult.flight matchedFlight) ∧
    validate_result main_deps (SearchResult.flight wrongOriginFlight) =
      ValidateOutcome.modelRetry "Flight should have origin BOS, not SFO" ∧
    validate_result main_deps (SearchResult.flight wrongBothFlight) =
      ValidateOutcome.modelRetry
        ("Flight should have origin BOS, not SFO\nFlight should have destination YYZ not FAI") ∧
    validate_result main_deps (SearchResult.flight wrongDateFlight) =
      ValidateOutcome.attributeError "date" := by
  refine ⟨?_, ?_, ?_, ?_⟩ <;> rfl

/-- Claim C6: `validate_result` passes a `NonFlightFound` result through
unchanged for every criteria record, performing no predicate checks
(src/main.py:69-70). -/
theorem C6_not_found_passthrough (deps : Deps) :
    validate_result deps SearchResult.nonFlightFound =
      ValidateOutcome.ok SearchResult.nonFlightFound := rfl

/-- Claim C7: `SeatPreference` construction succeeds exactly when the row
is in [1,30] and the seat letter is one of A-F; a successful construction
carries the given row and seat unchanged (no clamping or coercion), and
hence every constructed value satisfies both constraints. -/
theorem C7_seat_construction (row : Int) (seat : Char) :
    ((mk_SeatPreference row seat).isSome ↔ (1 ≤ row ∧ row ≤ 30 ∧ seat ∈ seatLetters)) ∧
    (∀ p, mk_SeatPreference row seat = some p →
      p.row = row ∧ p.seat = seat ∧ 1 ≤ p.row ∧ p.row ≤ 30 ∧ p.seat ∈ seatLetters) := by
  constructor
  · unfold mk_SeatPreference
    by_cases h : 1 ≤ row ∧ row ≤ 30 ∧ seat ∈ seatLetters <;> simp [h]
  · intro p hp
    unfold mk_SeatPreference at hp
    by_cases h : 1 ≤ row ∧ row ≤ 30 ∧ seat ∈ seatLetters
    · simp [h] at hp
      subst hp
      exact ⟨rfl, rfl, h.1, h.2.1, h.2.2⟩
    · simp [h] at hp

/-- Witness for C7 at concrete inputs: row 14 seat A constructs and is
returned unchanged; row 31 and seat G fail construction. -/
theorem C7_seat_construction_witness :
    (mk_SeatPreference 14 'A' = some ⟨14, 'A'⟩ ∧
      (1 ≤ (14 : Int) ∧ (14 : Int) ≤ 30 ∧ 'A' ∈ seatLetters)) ∧
    (mk_SeatPreference 31 'A').isSome = false ∧
    (mk_SeatPreference 14 'G').isSome = false := by
  refine ⟨⟨by decide, ?_⟩, ?_, ?_⟩
  · exact (C7_seat_construction 14 'A').1.mp (by decide)
  · have h := (C7_seat_construction 31 'A').1
    simp only [show ¬(1 ≤ (31 : Int) ∧ (31 : Int) ≤ 30 ∧ 'A' ∈ seatLetters) from by decide,
      iff_false] at h
    simpa using h
  · have h := (C7_seat_construction 14 'G').1
    simp only [show ¬(1 ≤ (14 : Int) ∧ (14 : Int) ≤ 30 ∧ 'G' ∈ seatLetters) from by decide,
      iff_false] at h
    simpa using h

/-- Claim C3 (code bug): the claim says an always-mismatching model makes
one search run perform exactly 4 retries before the fatal failure.  That
holds when the mismatch leaves the date predicate satisfied (first two
conjuncts: an always-wrong-origin model is retried exactly 4 times and
then fails fatally).  But a model that always returns a record with a
mismatching date makes the validator raise `AttributeError`
(src/main.py:77 reads the nonexistent `Deps.date`), so the run dies on
the first attempt with zero retries (last two conjuncts). -/
theorem C3_retry_count :
    (search_agent_run main_deps originOracle [] 0).outcome = SearchOutcome.exceededRetries ∧
    (search_agent_run main_deps originOracle [] 0).retries = 4 ∧
    (search_agent_run main_deps dateOracle [] 0).outcome = SearchOutcome.attributeError "date" ∧
    (search_agent_run main_deps dateOracle [] 0).retries = 0 :=
  ⟨rfl, rfl, rfl, rfl⟩

/-- Claim C4 (code bug): the seat-selection loop does prompt, invoke,
report the parse failure, retry, and return the parsed `SeatPreference`
as-is (first conjunct); but the history it passes to the retry
invocation is not "the failed exchange appended to the loop's history":
`find_seat` assigns `result.all_messages_json()` — the JSON *bytes* of
the messages — to a variable annotated `list[ModelMessage] | None`
(src/main.py:188, 201).  The second conjunct exhibits the two
invocations of a fail-once run: the first with `None`, the second with
the JSON-bytes serialization; the third states that neither history is
an actual message list. -/
theorem C4_seat_loop_history :
    (find_seat_entry failOnceSeatOracle (fun _ => "14A") 0).outcome =
      FindSeatOutcome.found ⟨14, 'A'⟩ ∧
    (find_seat_entry failOnceSeatOracle (fun _ => "14A") 0).calls =
      [("14A", SeatHist.none),
        ("14A", SeatHist.jsonBytes
          [⟨MsgTag.seat, "14A", ""⟩, ⟨MsgTag.seat, "could-not-parse", ""⟩])] ∧
    ((find_seat_entry failOnceSeatOracle (fun _ => "14A") 0).calls.map
      (fun c => c.2.isMsgList)) = [false, false] :=
  ⟨rfl, rfl, rfl⟩

/-- Claim C2 (code bug): the claim says the usage budget is consulted
before every model invocation in the run.  The configured limit is 15
(first conjunct), yet with a model that always finds a valid flight and
a user who always keeps searching, `main` has issued 16 search
invocations after 16 iterations and is still running — no
`UsageLimitExceeded` was raised, because `main` passes no `usage_limits`
to `search_agent.run` (src/main.py:158-162; likewise the nested
extraction run, src/main.py:63).  Only the seat loop consults the
budget, and there the check does run before the call: entered at the
limit, it raises having issued zero invocations (last two conjuncts). -/
theorem C2_usage_budget :
    usage_request_limit = 15 ∧
    mainSteps flightOracle alwaysSearchUser failOnceSeatOracle 16 =
      MainState.running main_deps (flightHist 16) 16 ∧
    (find_seat_entry failOnceSeatOracle (fun _ => "14A") 15).outcome =
      FindSeatOutcome.budgetExceeded ∧
    (find_seat_entry failOnceSeatOracle (fun _ => "14A") 15).calls = [] :=
  ⟨rfl, rfl, rfl, rfl⟩

/-- Claim C8 (code bug): the claim says every run terminates through one
of four paths and no infinite sequence of model invocations is
possible.  With a model that always returns the matching flight and a
user who always answers "search", the run is still in the running state
after `n` iterations for every `n`, having issued `n` model invocations
— the search loop consults no budget (src/main.py:158-162), so the run
need not terminate at all. -/
theorem C8_infinite_run :
    ∀ n, mainSteps flightOracle alwaysSearchUser failOnceSeatOracle n =
      MainState.running main_deps (flightHist n) n := by
  intro n
  induction n with
  | zero => rfl
  | succ n ih =>
    have h1 : mainSteps flightOracle alwaysSearchUser failOnceSeatOracle (n + 1) =
        mainStep flightOracle alwaysSearchUser failOnceSeatOracle n
          (mainSteps flightOracle alwaysSearchUser failOnceSeatOracle n) := rfl
    rw [h1, ih]
    rfl

/-- Claim C10: after a search step yielding a valid flight, if the user
does not answer "buy", the loop's next state keeps `deps` (hence the
criteria and the rebuilt prompt) unchanged and sets the history to all
prior messages followed by this run's messages, whose final result-tool
return content is replaced by the fresh instruction "Please suggest
another flight" (src/main.py:180-183); the prior history is preserved as
a prefix. -/
theorem C10_continue_search (so : SearchOracle) (uo : UserOracle) (seo : SeatOracle)
    (n usage : Nat) (deps : Deps) (h : Option (List Msg)) (f : FlightDetails)
    (hrun : (search_agent_run deps so (histList h) usage).outcome =
      SearchOutcome.success (SearchResult.flight f))
    (hans : uo.buyAnswer n ≠ "buy") :
    mainStep so uo seo n (MainState.running deps h usage) =
      MainState.running deps
        (Option.some (histList h ++ setLastReturn "Please suggest another flight"
          (search_agent_run deps so (histList h) usage).msgs))
        (search_agent_run deps so (histList h) usage).usage ∧
    histList h <+: histList h ++ setLastReturn "Please suggest another flight"
      (search_agent_run deps so (histList h) usage).msgs := by
  constructor
  · rcases hre : search_agent_run deps so (histList h) usage with ⟨o, msgs, u2, rt⟩
    rw [hre] at hrun
    simp only at hrun
    subst hrun
    simp only [mainStep, hre]
    rw [if_neg hans]
  · exact List.prefix_append _ _

/-- Witness for C10 at a concrete state: iteration 0, empty history,
usage 0, the always-matching model and the always-keep-searching user. -/
theorem C10_continue_search_witness :
    (search_agent_run main_deps flightOracle (histList Option.none) 0).outcome =
      SearchOutcome.success (SearchResult.flight matchedFlight) ∧
    alwaysSearchUser.buyAnswer 0 ≠ "buy" ∧
    mainStep flightOracle alwaysSearchUser failOnceSeatOracle 0
        (MainState.running main_deps Option.none 0) =
      MainState.running main_deps
        (Option.some (histList Option.none ++
          setLastReturn "Please suggest another flight"
            (search_agent_run main_deps flightOracle (histList Option.none) 0).msgs))
        (search_agent_run main_deps flightOracle (histList Option.none) 0).usage :=
  ⟨rfl, by decide,
    (C10_continue_search flightOracle alwaysSearchUser failOnceSeatOracle
      0 0 main_deps Option.none matchedFlight rfl (by decide)).1⟩

end FlightBooking

namespace FlightBooking

/-- Every message a search run produces is tagged as belonging to the
search loop, provided the accumulated messages so far are. -/
theorem searchRunGo_tags (deps : Deps) (oracle : SearchOracle) (hist : List Msg) :
    ∀ rl usage acc rd, (∀ m ∈ acc, m.tag = MsgTag.search) →
      ∀ m ∈ (searchRunGo deps oracle hist usage acc rd rl).msgs, m.tag = MsgTag.search := by
  intro rl
  induction rl with
  | zero =>
    intro usage acc rd hacc m hm
    simp only [searchRunGo] at hm
    split at hm <;>
      (rcases List.mem_append.mp hm with h1 | h1
       · exact hacc m h1
       · simp at h1; subst h1; rfl)
  | succ rl ih =>
    intro usage acc rd hacc m hm
    simp only [searchRunGo] at hm
    split at hm
    · rcases List.mem_append.mp hm with h1 | h1
      · exact hacc m h1
      · simp at h1; subst h1; rfl
    · rcases List.mem_append.mp hm with h1 | h1
      · exact hacc m h1
      · simp at h1; subst h1; rfl
    · refine ih _ _ _ ?_ m hm
      intro m2 hm2
      rcases List.mem_append.mp hm2 with h2 | h2
      · rcases List.mem_append.mp h2 with h3 | h3
        · exact hacc m2 h3
        · simp at h3; subst h3; rfl
      · simp at h2; subst h2; rfl

/-- Replacing the final return content does not change any message's
loop tag. -/
theorem setLastReturn_tags (rc : String) (t : MsgTag) :
    ∀ l : List Msg, (∀ m ∈ l, m.tag = t) → ∀ m ∈ setLastReturn rc l, m.tag = t := by
  intro l
  induction l with
  | nil => intro _ m hm; simp [setLastReturn] at hm
  | cons a l ih =>
    cases l with
    | nil =>
      intro hl m hm
      simp [setLastReturn] at hm
      subst hm
      exact hl a (by simp)
    | cons b l2 =>
      intro hl m hm
      simp only [setLastReturn] at hm
      rcases List.mem_cons.mp hm with h1 | h1
      · subst h1; exact hl _ (List.mem_cons_self _ _)
      · exact ih (fun m2 hm2 => hl m2 (List.mem_cons_of_mem _ hm2)) m h1

/-- The messages underlying a legitimate seat-loop history all belong
to the seat loop. -/
theorem seatHistOk_underlying (hist : SeatHist) (hok : seatHistOk hist = true) :
    ∀ m ∈ hist.underlying, m.tag = MsgTag.seat := by
  cases hist with
  | none => intro m hm; simp [SeatHist.underlying] at hm
  | msgs l => simp [seatHistOk] at hok
  | jsonBytes l =>
    intro m hm
    simp only [seatHistOk, List.all_eq_true] at hok
    have := hok m hm
    simpa using this

/-- Every history the seat loop passes to one of its invocations is a
legitimate seat-loop history (no search-loop message, never an actual
message list), provided the history it starts from is. -/
theorem findSeatGo_calls_ok (seo : SeatOracle) (texts : Nat → String) :
    ∀ fuel iter hist usage, seatHistOk hist = true →
      ∀ c ∈ (findSeatGo seo texts fuel iter hist usage).calls, seatHistOk c.2 = true := by
  intro fuel
  induction fuel with
  | zero => intro iter hist usage hok c hc; simp [findSeatGo] at hc
  | succ fuel ih =>
    intro iter hist usage hok c hc
    simp only [findSeatGo] at hc
    by_cases hb : usage_request_limit ≤ usage
    · rw [if_pos hb] at hc; simp at hc
    · rw [if_neg hb] at hc
      rcases hp : seo.parse (texts iter) hist with _ | p
      · rw [hp] at hc
        simp only [List.mem_cons] at hc
        rcases hc with hc | hc
        · subst hc; exact hok
        · refine ih _ _ _ ?_ c hc
          simp only [seatHistOk, List.all_append, List.all_eq_true, Bool.and_eq_true]
          constructor
          · intro m hm
            simp [seatHistOk_underlying hist hok m hm]
          · simp
      · rw [hp] at hc
        simp only [List.mem_singleton] at hc
        subst hc; exact hok

/-- The seat loop's first invocation is issued with exactly the history
the loop was entered with. -/
theorem findSeatGo_head_call (seo : SeatOracle) (texts : Nat → String)
    (fuel iter : Nat) (hist : SeatHist) (usage : Nat) :
    ∀ c0 cs, (findSeatGo seo texts fuel iter hist usage).calls = c0 :: cs →
      c0.2 = hist := by
  intro c0 cs hc
  cases fuel with
  | zero => simp [findSeatGo] at hc
  | succ fuel =>
    simp only [findSeatGo] at hc
    by_cases hb : usage_request_limit ≤ usage
    · rw [if_pos hb] at hc; simp at hc
    · rw [if_neg hb] at hc
      rcases hp : seo.parse (texts iter) hist with _ | p
      · rw [hp] at hc
        simp only [List.cons.injEq] at hc
        rw [← hc.1]
      · rw [hp] at hc
        simp only [List.cons.injEq] at hc
        rw [← hc.1]

/-- Whenever `main`'s loop is still running, its `deps` are the initial
ones and every message in its history belongs to the search loop. -/
theorem mainSteps_running_inv (so : SearchOracle) (uo : UserOracle) (seo : SeatOracle) :
    ∀ n deps h usage, mainSteps so uo seo n = MainState.running deps h usage →
      deps = main_deps ∧ (∀ m ∈ histList h, m.tag = MsgTag.search) := by
  intro n
  induction n with
  | zero =>
    intro deps h usage hs
    simp only [mainSteps] at hs
    injection hs with h1 h2 h3
    subst h1; subst h2
    exact ⟨rfl, by intro m hm; simp [histList] at hm⟩
  | succ n ih =>
    intro deps h usage hs
    have hstep : mainSteps so uo seo (n + 1) =
        mainStep so uo seo n (mainSteps so uo seo n) := rfl
    rw [hstep] at hs
    cases hprev : mainSteps so uo seo n with
    | running deps0 h0 u0 =>
      rw [hprev] at hs
      obtain ⟨hdeps0, htags0⟩ := ih deps0 h0 u0 hprev
      rcases hre : search_agent_run deps0 so (histList h0) u0 with ⟨o, msgs, u2, rt⟩
      simp only [mainStep, hre] at hs
      cases o with
      | attributeError a => simp at hs
      | exceededRetries => simp at hs
      | success res =>
        cases res with
        | nonFlightFound => simp at hs
        | flight f =>
          dsimp only at hs
          by_cases hb : uo.buyAnswer n = "buy"
          · rw [if_pos hb] at hs
            cases hfs : (find_seat_entry seo uo.seatText u2).outcome with
            | found p => rw [hfs] at hs; simp at hs
            | budgetExceeded => rw [hfs] at hs; simp at hs
          · rw [if_neg hb] at hs
            injection hs with h1 h2 h3
            subst h1
            refine ⟨hdeps0, ?_⟩
            rw [← h2]
            intro m hm
            simp only [histList] at hm
            rcases List.mem_append.mp hm with hm1 | hm1
            · exact htags0 m hm1
            · refine setLastReturn_tags _ _ _ ?_ m hm1
              intro m2 hm2
              have h4 := searchRunGo_tags deps0 so (histList h0) 4 u0
                [⟨MsgTag.search, search_prompt deps0, ""⟩] 0
                (by intro m3 hm3; simp at hm3; subst hm3; rfl)
              have h5 : (searchRunGo deps0 so (histList h0) u0
                  [⟨MsgTag.search, search_prompt deps0, ""⟩] 0 4).msgs = msgs := by
                have h6 : search_agent_run deps0 so (histList h0) u0 =
                    searchRunGo deps0 so (histList h0) u0
                      [⟨MsgTag.search, search_prompt deps0, ""⟩] 0 4 := rfl
                rw [← h6, hre]
              exact h4 m2 (by rw [h5]; exact hm2)
    | notFound u0 => rw [hprev] at hs; simp [mainStep] at hs
    | bought f p u0 => rw [hprev] at hs; simp [mainStep] at hs
    | fatalRetries u0 => rw [hprev] at hs; simp [mainStep] at hs
    | fatalAttribute u0 => rw [hprev] at hs; simp [mainStep] at hs
    | fatalBudget u0 => rw [hprev] at hs; simp [mainStep] at hs

/-- Across one iteration of `main`'s loop, the history only grows by
appending and `deps` are passed on unchanged. -/
theorem mainSteps_append_only (so : SearchOracle) (uo : UserOracle) (seo : SeatOracle) :
    ∀ n deps deps' h h' usage usage',
      mainSteps so uo seo n = MainState.running deps h usage →
      mainSteps so uo seo (n + 1) = MainState.running deps' h' usage' →
      deps' = deps ∧ histList h <+: histList h' := by
  intro n deps deps' h h' usage usage' hn hn1
  have hstep : mainSteps so uo seo (n + 1) =
      mainStep so uo seo n (mainSteps so uo seo n) := rfl
  rw [hstep, hn] at hn1
  rcases hre : search_agent_run deps so (histList h) usage with ⟨o, msgs, u2, rt⟩
  simp only [mainStep, hre] at hn1
  cases o with
  | attributeError a => simp at hn1
  | exceededRetries => simp at hn1
  | success res =>
    cases res with
    | nonFlightFound => simp at hn1
    | flight f =>
      dsimp only at hn1
      by_cases hb : uo.buyAnswer n = "buy"
      · rw [if_pos hb] at hn1
        cases hfs : (find_seat_entry seo uo.seatText u2).outcome with
        | found p => rw [hfs] at hn1; simp at hn1
        | budgetExceeded => rw [hfs] at hn1; simp at hn1
      · rw [if_neg hb] at hn1
        injection hn1 with e1 e2 e3
        subst e1
        refine ⟨rfl, ?_⟩
        rw [← e2]
        simp only [histList]
        exact List.prefix_append _ _

/-- Claim C9: conversation history is owned by the loop currently
running.  For arbitrary model and user behavior: the search loop starts
with an empty history; every message in any history the search loop
passes to a search invocation belongs to the search loop; every history
the seat loop passes to its invocations is `None` or built solely from
seat-loop messages (so no entry crosses between the loops in either
direction); the seat loop's first invocation carries the reset (`None`)
history; and across search iterations, history only grows by
appending. -/
theorem C9_history_ownership (so : SearchOracle) (uo : UserOracle) (seo : SeatOracle) :
    (mainSteps so uo seo 0 = MainState.running main_deps Option.none 0) ∧
    (∀ n deps h usage, mainSteps so uo seo n = MainState.running deps h usage →
      ∀ m ∈ histList h, m.tag = MsgTag.search) ∧
    (∀ texts usage c, c ∈ (find_seat_entry seo texts usage).calls →
      seatHistOk c.2 = true) ∧
    (∀ texts usage c0 cs, (find_seat_entry seo texts usage).calls = c0 :: cs →
      c0.2 = SeatHist.none) ∧
    (∀ n deps deps' h h' usage usage',
      mainSteps so uo seo n = MainState.running deps h usage →
      mainSteps so uo seo (n + 1) = MainState.running deps' h' usage' →
      histList h <+: histList h') := by
  refine ⟨rfl, ?_, ?_, ?_, ?_⟩
  · intro n deps h usage hs
    exact (mainSteps_running_inv so uo seo n deps h usage hs).2
  · intro texts usage c hc
    exact findSeatGo_calls_ok seo texts _ 0 SeatHist.none usage rfl c hc
  · intro texts usage c0 cs hc
    exact findSeatGo_head_call seo texts _ 0 SeatHist.none usage c0 cs hc
  · intro n deps deps' h h' usage usage' hn hn1
    exact (mainSteps_append_only so uo seo n deps deps' h h' usage usage' hn hn1).2

/-- Witness for C9 at concrete oracles and steps: the always-matching
model, the always-keep-searching user, and the fail-once seat model. -/
theorem C9_history_ownership_witness :
    mainSteps flightOracle alwaysSearchUser failOnceSeatOracle 0 =
      MainState.running main_deps Option.none 0 ∧
    (⟨MsgTag.search, search_prompt main_deps, ""⟩ : Msg).tag = MsgTag.search ∧
    seatHistOk ("14A", SeatHist.none).2 = true ∧
    histList (flightHist 1) <+: histList (flightHist 2) := by
  have hmain := C9_history_ownership flightOracle alwaysSearchUser failOnceSeatOracle
  refine ⟨hmain.1, ?_, ?_, ?_⟩
  · exact hmain.2.1 1 main_deps (flightHist 1) 1 rfl
      ⟨MsgTag.search, search_prompt main_deps, ""⟩ (by decide)
  · exact hmain.2.2.1 (fun _ => "14A") 0 ("14A", SeatHist.none) (by decide)
  · exact hmain.2.2.2.2 1 main_deps main_deps (flightHist 1) (flightHist 2) 1 2 rfl rfl

end FlightBooking
